import Mathlib

/-!
Verification of the Strava OAuth relay (`functions/main.py`).

The relay is a small Flask application with five operations: build an
authorization URL, exchange an authorization code for tokens, refresh tokens,
fetch activities, and fetch athlete zones.  The development below embeds the
handler bodies as pure Lean functions.  The upstream HTTP client is modelled
as an oracle: for the token endpoint, a function from the attempt index to an
outcome (a transport fault or a delivered response); for the two GET relays,
a single outcome.  Human-readable fragments produced by the Python runtime
(`str(e)` of exceptions, whose wording depends on library versions) are
modelled as fixed constant strings; no theorem depends on their exact text.
-/

/-- A JSON value, as produced by Python's `json` module / `response.json()`.
Numbers are modelled as integers (the relay never computes with them). -/
inductive Json where
  | str (s : String)
  | num (n : Int)
  | bool (b : Bool)
  | null
  | arr (xs : List Json)
  | obj (fields : List (String × Json))

/-- `d.get(k)` on a Python dict decoded from JSON: the value at key `k`, or
`none` when the key is absent.  JSON decoding keeps the last duplicate key,
hence the reversed search. -/
def pyGet (fields : List (String × Json)) (k : String) : Option Json :=
  (fields.reverse.find? (fun kv => kv.1 = k)).map (fun kv => kv.2)

/-- Python truth test `not x` on an optional decoded-JSON value: `None`,
`False`, `0`, `""`, `[]` and `{}` are falsy. -/
def pyFalsy : Option Json → Bool
  | none => true
  | some (.str s) => s = ""
  | some (.num n) => n = 0
  | some (.bool b) => !b
  | some .null => true
  | some (.arr xs) => xs.isEmpty
  | some (.obj fs) => fs.isEmpty

mutual

/-- `json.dumps` with Python's default separators.  String escaping is
elided (no theorem inspects the rendered text). -/
def jsonDumps : Json → String
  | .str s => "\"" ++ s ++ "\""
  | .num n => toString n
  | .bool b => if b then "true" else "false"
  | .null => "null"
  | .arr xs => "[" ++ jsonDumpsList xs ++ "]"
  | .obj fs => "\x7b" ++ jsonDumpsObj fs ++ "\x7d"

def jsonDumpsList : List Json → String
  | [] => ""
  | [x] => jsonDumps x
  | x :: y :: xs => jsonDumps x ++ ", " ++ jsonDumpsList (y :: xs)

def jsonDumpsObj : List (String × Json) → String
  | [] => ""
  | [(k, v)] => "\"" ++ k ++ "\": " ++ jsonDumps v
  | (k, v) :: y :: xs => "\"" ++ k ++ "\": " ++ jsonDumps v ++ ", " ++ jsonDumpsObj (y :: xs)

end

/-- Python `str()` / f-string interpolation of a decoded-JSON value (used
only inside log/error message strings).  Container rendering is approximated
by `jsonDumps`; no theorem inspects the resulting text. -/
def pyToStr : Json → String
  | .str s => s
  | .num n => toString n
  | .bool b => if b then "True" else "False"
  | .null => "None"
  | .arr xs => jsonDumps (.arr xs)
  | .obj fs => jsonDumps (.obj fs)

/-- The JSON body `jsonify({"error": msg})` that every handler uses for
error responses. -/
def mkError (msg : String) : Json :=
  Json.obj [("error", Json.str msg)]

/-- One step of Python's `str.replace`: scan left to right, and at each
position replace the (nonempty) pattern when it matches, skipping past it.
`fuel` bounds the recursion; it is instantiated with the length of the
scanned list, which suffices because every step consumes at least one
character. -/
def replaceFuel (pat rep : List Char) : Nat → List Char → List Char
  | 0, l => l
  | fuel + 1, l =>
    match l with
    | [] => []
    | c :: rest =>
      if pat == (c :: rest).take pat.length && pat.length != 0 then
        rep ++ replaceFuel pat rep fuel (List.drop (pat.length - 1) rest)
      else
        c :: replaceFuel pat rep fuel rest

/-- Python `s.replace(pat, rep)` for a nonempty pattern: every
(non-overlapping, leftmost-first) occurrence is replaced. -/
def pyReplace (s pat rep : String) : String :=
  String.mk (replaceFuel pat.data rep.data s.data.length s.data)

/-- A delivered HTTP response from the upstream API: status code, the result
of `response.json()` (`none` when the body is not parseable JSON), and the
raw `response.text`. -/
structure HttpResponse where
  status : Nat
  jsonBody : Option Json
  text : String

/-- Outcome of one call through the HTTP client: a transport-level fault
(`requests.ConnectionError` / `requests.Timeout`, carrying its `str(e)`
message) or a delivered response (whatever its status code). -/
inductive UpstreamOutcome where
  | transportFault (msg : String)
  | response (r : HttpResponse)

/-- Result of `make_token_request_with_retry`: the response returned by a
successful attempt, the re-raised transport fault after exhausting all
attempts, or the implicit `None` returned when `max_retries` is zero and the
`while` loop body never runs. -/
inductive RetryOutcome where
  | success (r : HttpResponse)
  | transportRaise (msg : String)
  | noResponse

/-- Observable trace of the retry loop: its outcome, the number of POST
attempts performed, and the number of `time.sleep(1)` backoff waits. -/
structure RetryTrace where
  outcome : RetryOutcome
  attempts : Nat
  sleeps : Nat

/-- The `while retries < max_retries` loop of `make_token_request_with_retry`.
`fuel` stands for `max_retries - retries`, so the loop guard
`retries < max_retries` is `fuel > 0` and the post-increment check
`retries + 1 < max_retries` (sleep and retry vs. re-raise) is `fuel > 1`.
`retries` is the index of the current attempt (and the number of attempts
already performed), `sleeps` the number of backoff waits so far. -/
def retryAux (client : Nat → UpstreamOutcome) : Nat → Nat → Nat → RetryTrace
  | 0, retries, sleeps => ⟨.noResponse, retries, sleeps⟩
  | fuel + 1, retries, sleeps =>
    match client retries with
    | .response r => ⟨.success r, retries + 1, sleeps⟩
    | .transportFault msg =>
      match fuel with
      | 0 => ⟨.transportRaise msg, retries + 1, sleeps⟩
      | f + 1 => retryAux client (f + 1) (retries + 1) (sleeps + 1)

/-- `make_token_request_with_retry(payload, max_retries)`: POST to the token
endpoint; a delivered response (any status) is returned immediately; a
transport fault increments the counter and, when attempts remain, sleeps one
unit and retries, otherwise re-raises the fault.  The upstream is an oracle
from attempt index to outcome (the payload does not influence the simulated
transport).  The call sites in the source use the default `max_retries = 3`. -/
def make_token_request_with_retry (client : Nat → UpstreamOutcome)
    (maxRetries : Nat) : RetryTrace :=
  retryAux client maxRetries 0 0

/-- The form-encoded payload POSTed to the token endpoint: credentials, one
grant field (`code` or `refresh_token`) and the grant type. -/
structure TokenPayload where
  client_id : String
  client_secret : String
  grant_field : String
  grant_value : Json
  grant_type : String

/-- The value of `request.json` seen by the two token handlers:
`unparseable` (the body is not valid JSON, so the property raises a
`BadRequest` exception), `null` (decoded to Python `None`), a decoded
non-object value, or a decoded JSON object. -/
inductive BodyParse where
  | unparseable
  | null
  | nonObject (j : Json)
  | object (fields : List (String × Json))

/-- Observable result of a token handler: HTTP status and JSON body of the
Flask response, number of upstream POST attempts, the payload built for the
upstream call (when one was built), and the redacted mapping written to the
log on success (when one was written). -/
structure OpResult where
  status : Nat
  body : Json
  attempts : Nat
  payload : Option TokenPayload
  logSafe : Option (List (String × Json))

/-- `str(e)` of the `werkzeug BadRequest` raised by `request.json` on an
unparseable body. -/
def flaskBadRequestMsg : String :=
  "400 Bad Request: The browser (or proxy) sent a request that this server could not understand."

/-- `str(e)` of the `AttributeError` raised by `None.get(...)` (JSON `null`
body; quotes of the original Python message elided). -/
def pyNoneGetAttrMsg : String := "NoneType object has no attribute get"

/-- `str(e)` of the `AttributeError` raised by `.get(...)` on a decoded
non-object JSON value. -/
def pyGetAttrMsg : String := "object has no attribute get"

/-- `str(e)` of the `AttributeError` raised by `.items()` on a decoded
non-object JSON value. -/
def pyItemsAttrMsg : String := "object has no attribute items"

/-- `str(e)` of the `AttributeError` raised by `None.status_code` when the
retry helper falls off its loop and returns `None` (`max_retries = 0`). -/
def pyNoneStatusAttrMsg : String := "NoneType object has no attribute status_code"

/-- `str(e)` of the `requests` JSON-decode error raised by `response.json()`
on a non-JSON body (a `RequestException` without an attached response in the
`requests` versions this code runs against). -/
def requestsJsonDecodeMsg : String := "Expecting value: line 1 column 1 (char 0)"

/-- `str(e)` of the `requests.HTTPError` raised by `raise_for_status()` for
a 4xx/5xx response (the real text also carries reason and URL; abstracted as
a function of the status code only). -/
def httpErrorMsg (status : Nat) : String :=
  toString status ++ " Error for url"

/-- The `error_detail` computation of the token handlers' non-200 branch:
`error_data.get('message', error_data.get('error', json.dumps(error_data)))`
formatted into the message when `response.json()` yields a dict, and the
first 500 characters of `response.text` when the body is not JSON or not a
dict (the bare `except:` branch). -/
def upstreamErrDetail (r : HttpResponse) : String :=
  match r.jsonBody with
  | some (.obj fs) =>
    match pyGet fs "message" with
    | some v => pyToStr v
    | none =>
      match pyGet fs "error" with
      | some v => pyToStr v
      | none => jsonDumps (.obj fs)
  | _ => r.text.take 500

/-- The redacted view of a successful token response written to the log:
`{k: v if k not in ('access_token', 'refresh_token') else '[REDACTED]'
for k, v in token_data.items()}`. -/
def logSafeData (td : List (String × Json)) : List (String × Json) :=
  td.map (fun kv =>
    (kv.1, if kv.1 = "access_token" ∨ kv.1 = "refresh_token"
           then Json.str "[REDACTED]" else kv.2))

/-- The `/api/exchange-token` handler.  `clientId` / `clientSecret` model the
process-wide credential strings (`""` stands for unset/empty, both falsy in
the source's `if not ...` checks); `client` is the token-endpoint oracle.
Branches, in source order: blanket `except Exception` for body-parse and
attribute errors (500); missing/falsy `code` (400); missing credentials
(500); retry; non-200 normalization; JSON-object pass-through with redacted
logging; blanket handler for the remaining exceptions (500). -/
def exchange_token (body : BodyParse) (clientId clientSecret : String)
    (client : Nat → UpstreamOutcome) : OpResult :=
  match body with
  | .unparseable =>
    { status := 500, body := mkError ("Exception during token exchange: " ++ flaskBadRequestMsg),
      attempts := 0, payload := none, logSafe := none }
  | .null =>
    { status := 500, body := mkError ("Exception during token exchange: " ++ pyNoneGetAttrMsg),
      attempts := 0, payload := none, logSafe := none }
  | .nonObject _ =>
    { status := 500, body := mkError ("Exception during token exchange: " ++ pyGetAttrMsg),
      attempts := 0, payload := none, logSafe := none }
  | .object fields =>
    let code := pyGet fields "code"
    if pyFalsy code then
      { status := 400, body := mkError "No authorization code provided",
        attempts := 0, payload := none, logSafe := none }
    else if clientId = "" ∨ clientSecret = "" then
      { status := 500, body := mkError "Server configuration error: API credentials missing",
        attempts := 0, payload := none, logSafe := none }
    else
      let payload : TokenPayload :=
        { client_id := clientId, client_secret := clientSecret,
          grant_field := "code", grant_value := code.getD .null,
          grant_type := "authorization_code" }
      let t := make_token_request_with_retry client 3
      match t.outcome with
      | .transportRaise msg =>
        { status := 500, body := mkError ("Exception during token exchange: " ++ msg),
          attempts := t.attempts, payload := some payload, logSafe := none }
      | .noResponse =>
        { status := 500, body := mkError ("Exception during token exchange: " ++ pyNoneStatusAttrMsg),
          attempts := t.attempts, payload := some payload, logSafe := none }
      | .success r =>
        if r.status ≠ 200 then
          { status := r.status,
            body := mkError ("Strava API error: " ++ toString r.status ++ " - " ++ upstreamErrDetail r),
            attempts := t.attempts, payload := some payload, logSafe := none }
        else
          match r.jsonBody with
          | some (.obj td) =>
            { status := 200, body := .obj td,
              attempts := t.attempts, payload := some payload, logSafe := some (logSafeData td) }
          | some _ =>
            { status := 500, body := mkError ("Exception during token exchange: " ++ pyItemsAttrMsg),
              attempts := t.attempts, payload := some payload, logSafe := none }
          | none =>
            { status := 500, body := mkError ("Exception during token exchange: " ++ requestsJsonDecodeMsg),
              attempts := t.attempts, payload := some payload, logSafe := none }

/-- The `/api/refresh-token` handler: textually parallel to `exchange_token`
in the source, keyed on `refresh_token` instead of `code`, grant type
`refresh_token` instead of `authorization_code`, message prefix "token
refresh" instead of "token exchange", and 400 message "No refresh token
provided" instead of "No authorization code provided". -/
def refresh_token (body : BodyParse) (clientId clientSecret : String)
    (client : Nat → UpstreamOutcome) : OpResult :=
  match body with
  | .unparseable =>
    { status := 500, body := mkError ("Exception during token refresh: " ++ flaskBadRequestMsg),
      attempts := 0, payload := none, logSafe := none }
  | .null =>
    { status := 500, body := mkError ("Exception during token refresh: " ++ pyNoneGetAttrMsg),
      attempts := 0, payload := none, logSafe := none }
  | .nonObject _ =>
    { status := 500, body := mkError ("Exception during token refresh: " ++ pyGetAttrMsg),
      attempts := 0, payload := none, logSafe := none }
  | .object fields =>
    let rt := pyGet fields "refresh_token"
    if pyFalsy rt then
      { status := 400, body := mkError "No refresh token provided",
        attempts := 0, payload := none, logSafe := none }
    else if clientId = "" ∨ clientSecret = "" then
      { status := 500, body := mkError "Server configuration error: API credentials missing",
        attempts := 0, payload := none, logSafe := none }
    else
      let payload : TokenPayload :=
        { client_id := clientId, client_secret := clientSecret,
          grant_field := "refresh_token", grant_value := rt.getD .null,
          grant_type := "refresh_token" }
      let t := make_token_request_with_retry client 3
      match t.outcome with
      | .transportRaise msg =>
        { status := 500, body := mkError ("Exception during token refresh: " ++ msg),
          attempts := t.attempts, payload := some payload, logSafe := none }
      | .noResponse =>
        { status := 500, body := mkError ("Exception during token refresh: " ++ pyNoneStatusAttrMsg),
          attempts := t.attempts, payload := some payload, logSafe := none }
      | .success r =>
        if r.status ≠ 200 then
          { status := r.status,
            body := mkError ("Strava API error: " ++ toString r.status ++ " - " ++ upstreamErrDetail r),
            attempts := t.attempts, payload := some payload, logSafe := none }
        else
          match r.jsonBody with
          | some (.obj td) =>
            { status := 200, body := .obj td,
              attempts := t.attempts, payload := some payload, logSafe := some (logSafeData td) }
          | some _ =>
            { status := 500, body := mkError ("Exception during token refresh: " ++ pyItemsAttrMsg),
              attempts := t.attempts, payload := some payload, logSafe := none }
          | none =>
            { status := 500, body := mkError ("Exception during token refresh: " ++ requestsJsonDecodeMsg),
              attempts := t.attempts, payload := some payload, logSafe := none }

/-- Observable result of the two GET relays: HTTP status and JSON body of
the Flask response, number of upstream GET calls, the bearer token forwarded
upstream (when a call was made), and the query parameters forwarded (when a
call was made; always `none` for the zones handler, which forwards none). -/
structure FetchResult where
  status : Nat
  body : Json
  upstreamCalls : Nat
  forwardedToken : Option String
  forwardedParams : Option (List (String × String))

/-- The `/api/activities` handler.  The token is
`request.headers.get('Authorization', '').replace('Bearer ', '')` — note
`str.replace` removes every occurrence, not just a leading prefix.  Empty
token: 401, no upstream call.  Otherwise one GET; `raise_for_status()`
raises for 4xx/5xx, and the handler relays a parseable upstream JSON error
body verbatim with its status, else a synthesized `{error}` with that
status; the JSON-decode failure on a non-error response is a
`RequestException` with no attached response, hence `{error}` with 500, as
is a transport fault. -/
def get_activities (authHeader : Option String) (params : List (String × String))
    (upstream : UpstreamOutcome) : FetchResult :=
  let access_token := pyReplace (authHeader.getD "") "Bearer " ""
  if access_token = "" then
    { status := 401, body := mkError "No access token provided",
      upstreamCalls := 0, forwardedToken := none, forwardedParams := none }
  else
    match upstream with
    | .transportFault msg =>
      { status := 500, body := mkError msg,
        upstreamCalls := 1, forwardedToken := some access_token, forwardedParams := some params }
    | .response r =>
      if 400 ≤ r.status ∧ r.status < 600 then
        match r.jsonBody with
        | some j =>
          { status := r.status, body := j,
            upstreamCalls := 1, forwardedToken := some access_token, forwardedParams := some params }
        | none =>
          { status := r.status, body := mkError (httpErrorMsg r.status),
            upstreamCalls := 1, forwardedToken := some access_token, forwardedParams := some params }
      else
        match r.jsonBody with
        | some j =>
          { status := 200, body := j,
            upstreamCalls := 1, forwardedToken := some access_token, forwardedParams := some params }
        | none =>
          { status := 500, body := mkError requestsJsonDecodeMsg,
            upstreamCalls := 1, forwardedToken := some access_token, forwardedParams := some params }

/-- The `/api/athlete/zones` handler: identical to `get_activities` except
that no query parameters are forwarded. -/
def get_athlete_zones (authHeader : Option String)
    (upstream : UpstreamOutcome) : FetchResult :=
  let access_token := pyReplace (authHeader.getD "") "Bearer " ""
  if access_token = "" then
    { status := 401, body := mkError "No access token provided",
      upstreamCalls := 0, forwardedToken := none, forwardedParams := none }
  else
    match upstream with
    | .transportFault msg =>
      { status := 500, body := mkError msg,
        upstreamCalls := 1, forwardedToken := some access_token, forwardedParams := none }
    | .response r =>
      if 400 ≤ r.status ∧ r.status < 600 then
        match r.jsonBody with
        | some j =>
          { status := r.status, body := j,
            upstreamCalls := 1, forwardedToken := some access_token, forwardedParams := none }
        | none =>
          { status := r.status, body := mkError (httpErrorMsg r.status),
            upstreamCalls := 1, forwardedToken := some access_token, forwardedParams := none }
      else
        match r.jsonBody with
        | some j =>
          { status := 200, body := j,
            upstreamCalls := 1, forwardedToken := some access_token, forwardedParams := none }
        | none =>
          { status := 500, body := mkError requestsJsonDecodeMsg,
            upstreamCalls := 1, forwardedToken := some access_token, forwardedParams := none }

/-- The fixed Strava authorization-page URL of the source. -/
def STRAVA_AUTHORIZATION_URL : String := "https://www.strava.com/oauth/authorize"

/-- Observable result of the `/api/auth-url` handler. -/
structure AuthUrlResult where
  status : Nat
  body : Json

/-- The `/api/auth-url` handler: defaults the redirect URI and scopes from
the query string, 500 when the client id is unset, otherwise the templated
authorization URL. -/
def get_auth_url (redirectUriArg scopesArg : Option String)
    (clientId expectedRedirectUri : String) : AuthUrlResult :=
  let redirect_uri := redirectUriArg.getD expectedRedirectUri
  let scopes := scopesArg.getD "read,activity:read_all,profile:read_all"
  if clientId = "" then
    { status := 500, body := mkError "Server configuration error: STRAVA_CLIENT_ID missing" }
  else
    { status := 200,
      body := Json.obj [("url", Json.str (STRAVA_AUTHORIZATION_URL ++ "?client_id=" ++ clientId
        ++ "&redirect_uri=" ++ redirect_uri ++ "&response_type=code&scope=" ++ scopes))] }

/-! ## Retry loop lemmas -/

/-- If every attempt from index `retries` through the remaining `fuel`
attempts faults, the loop performs all of them, sleeps between consecutive
failed attempts (`fuel - 1` times), and re-raises the last fault. -/
theorem retryAux_all_fail (client : Nat → UpstreamOutcome) (msgs : Nat → String) :
    ∀ (fuel retries sleeps : Nat), 1 ≤ fuel →
      (∀ i, retries ≤ i → i < retries + fuel → client i = .transportFault (msgs i)) →
      retryAux client fuel retries sleeps =
        ⟨.transportRaise (msgs (retries + fuel - 1)), retries + fuel, sleeps + (fuel - 1)⟩ := by
  intro fuel
  induction fuel with
  | zero => intro retries sleeps h; exact absurd h (by omega)
  | succ f ih =>
    intro retries sleeps _ hfail
    have hc : client retries = .transportFault (msgs retries) :=
      hfail retries (Nat.le_refl _) (by omega)
    cases f with
    | zero =>
      unfold retryAux
      rw [hc]
      rfl
    | succ g =>
      have hrec := ih (retries + 1) (sleeps + 1) (by omega)
        (fun i h1 h2 => hfail i (by omega) (by omega))
      conv_lhs => unfold retryAux
      rw [hc]
      show retryAux client (g + 1) (retries + 1) (sleeps + 1) = _
      have e1 : retries + 1 + (g + 1) - 1 = retries + (g + 1 + 1) - 1 := by omega
      have e2 : retries + 1 + (g + 1) = retries + (g + 1 + 1) := by omega
      have e3 : sleeps + 1 + (g + 1 - 1) = sleeps + (g + 1 + 1 - 1) := by omega
      rw [hrec, e1, e2, e3]

/-- If attempts `retries, …, N - 1` fault and attempt `N` delivers a
response, the loop (with enough remaining attempts) returns that response
after `N + 1` total attempts and `N - retries` further sleeps. -/
theorem retryAux_success (client : Nat → UpstreamOutcome) (msgs : Nat → String)
    (r : HttpResponse) (N : Nat) :
    ∀ (fuel retries sleeps : Nat), retries ≤ N → N < retries + fuel →
      (∀ i, retries ≤ i → i < N → client i = .transportFault (msgs i)) →
      client N = .response r →
      retryAux client fuel retries sleeps = ⟨.success r, N + 1, sleeps + (N - retries)⟩ := by
  intro fuel
  induction fuel with
  | zero => intro retries sleeps h1 h2; exact absurd h2 (by omega)
  | succ f ih =>
    intro retries sleeps hle hlt hfail hsucc
    by_cases hN : retries = N
    · subst hN
      unfold retryAux
      rw [hsucc]
      simp
    · have hlt' : retries < N := Nat.lt_of_le_of_ne hle hN
      have hc := hfail retries (Nat.le_refl _) hlt'
      cases f with
      | zero => exact absurd hlt (by omega)
      | succ g =>
        conv_lhs => unfold retryAux
        rw [hc]
        show retryAux client (g + 1) (retries + 1) (sleeps + 1) = _
        rw [ih (retries + 1) (sleeps + 1) (by omega) (by omega)
          (fun i hi1 hi2 => hfail i (by omega) hi2) hsucc]
        have e : sleeps + 1 + (N - (retries + 1)) = sleeps + (N - retries) := by omega
        rw [e]

/-- Claim C1: with a token-endpoint client that faults at the transport
level on the first `N` attempts and then delivers a response, and any
`max_retries ≥ 1`, the retrying token request returns the delivered response
iff `N < max_retries`, performs exactly `min (N + 1) max_retries` POST
attempts, and when `N ≥ max_retries` re-raises the transport fault after
exactly `max_retries` attempts, having slept the fixed 1-unit backoff once
between each pair of consecutive failed attempts (`max_retries - 1` times). -/
theorem make_token_request_with_retry_bound
    (client : Nat → UpstreamOutcome) (msgs : Nat → String)
    (maxRetries N : Nat) (r : HttpResponse)
    (hmax : 1 ≤ maxRetries)
    (hfail : ∀ i, i < N → client i = .transportFault (msgs i))
    (hsucc : client N = .response r) :
    ((make_token_request_with_retry client maxRetries).outcome = .success r ↔ N < maxRetries) ∧
    (make_token_request_with_retry client maxRetries).attempts = min (N + 1) maxRetries ∧
    (N < maxRetries →
      make_token_request_with_retry client maxRetries = ⟨.success r, N + 1, N⟩) ∧
    (maxRetries ≤ N →
      make_token_request_with_retry client maxRetries =
        ⟨.transportRaise (msgs (maxRetries - 1)), maxRetries, maxRetries - 1⟩) := by
  have hS : N < maxRetries →
      make_token_request_with_retry client maxRetries = ⟨.success r, N + 1, N⟩ := by
    intro h
    unfold make_token_request_with_retry
    rw [retryAux_success client msgs r N maxRetries 0 0 (Nat.zero_le _) (by omega)
      (fun i _ hi => hfail i hi) hsucc]
    simp only [Nat.zero_add, Nat.sub_zero]
  have hF : maxRetries ≤ N →
      make_token_request_with_retry client maxRetries =
        ⟨.transportRaise (msgs (maxRetries - 1)), maxRetries, maxRetries - 1⟩ := by
    intro h
    unfold make_token_request_with_retry
    rw [retryAux_all_fail client msgs maxRetries 0 0 hmax
      (fun i _ hi => hfail i (by omega))]
    simp only [Nat.zero_add]
  refine ⟨⟨?_, ?_⟩, ?_, hS, hF⟩
  · intro hout
    by_contra hge
    push_neg at hge
    rw [hF hge] at hout
    simp at hout
  · intro h
    rw [hS h]
  · rcases Nat.lt_or_ge N maxRetries with h | h
    · rw [hS h]; simp; omega
    · rw [hF h]; simp; omega

/-- A token response used by concrete witnesses: the spec's end-to-end
scenario body. -/
def exampleTokenResponse : HttpResponse :=
  ⟨200, some (.obj [("access_token", .str "X"), ("refresh_token", .str "Y"),
    ("expires_at", .num 123)]), ""⟩

/-- A simulated token-endpoint client faulting on the first two attempts. -/
def failTwiceClient : Nat → UpstreamOutcome :=
  fun i => if i < 2 then .transportFault "connection aborted" else .response exampleTokenResponse

theorem make_token_request_with_retry_bound_witness :
    make_token_request_with_retry failTwiceClient 3 = ⟨.success exampleTokenResponse, 3, 2⟩ ∧
    make_token_request_with_retry failTwiceClient 2 =
      ⟨.transportRaise "connection aborted", 2, 1⟩ := by
  constructor
  · exact (make_token_request_with_retry_bound failTwiceClient (fun _ => "connection aborted")
      3 2 exampleTokenResponse (by omega) (fun i hi => by interval_cases i <;> rfl)
      rfl).2.2.1 (by omega)
  · exact (make_token_request_with_retry_bound failTwiceClient (fun _ => "connection aborted")
      2 2 exampleTokenResponse (by omega) (fun i hi => by interval_cases i <;> rfl)
      rfl).2.2.2 (by omega)

/-! ## Conditional unfolding of the token handlers past their validation -/

/-- With a truthy `code` and configured credentials, `exchange_token` is the
post-validation tail of its definition. -/
theorem exchange_token_object_eval (fields : List (String × Json))
    (clientId clientSecret : String) (client : Nat → UpstreamOutcome)
    (hcode : pyFalsy (pyGet fields "code") = false)
    (hcid : clientId ≠ "") (hcs : clientSecret ≠ "") :
    exchange_token (.object fields) clientId clientSecret client =
      (let payload : TokenPayload :=
        { client_id := clientId, client_secret := clientSecret,
          grant_field := "code", grant_value := (pyGet fields "code").getD .null,
          grant_type := "authorization_code" }
       let t := make_token_request_with_retry client 3
       match t.outcome with
       | .transportRaise msg =>
         { status := 500, body := mkError ("Exception during token exchange: " ++ msg),
           attempts := t.attempts, payload := some payload, logSafe := none }
       | .noResponse =>
         { status := 500, body := mkError ("Exception during token exchange: " ++ pyNoneStatusAttrMsg),
           attempts := t.attempts, payload := some payload, logSafe := none }
       | .success r =>
         if r.status ≠ 200 then
           { status := r.status,
             body := mkError ("Strava API error: " ++ toString r.status ++ " - " ++ upstreamErrDetail r),
             attempts := t.attempts, payload := some payload, logSafe := none }
         else
           match r.jsonBody with
           | some (.obj td) =>
             { status := 200, body := .obj td,
               attempts := t.attempts, payload := some payload, logSafe := some (logSafeData td) }
           | some _ =>
             { status := 500, body := mkError ("Exception during token exchange: " ++ pyItemsAttrMsg),
               attempts := t.attempts, payload := some payload, logSafe := none }
           | none =>
             { status := 500, body := mkError ("Exception during token exchange: " ++ requestsJsonDecodeMsg),
               attempts := t.attempts, payload := some payload, logSafe := none }) := by
  simp only [exchange_token, hcode, Bool.false_eq_true, if_false, hcid, hcs, or_self,
    false_or, or_false]

/-- With a truthy `refresh_token` and configured credentials, `refresh_token`
is the post-validation tail of its definition. -/
theorem refresh_token_object_eval (fields : List (String × Json))
    (clientId clientSecret : String) (client : Nat → UpstreamOutcome)
    (hrt : pyFalsy (pyGet fields "refresh_token") = false)
    (hcid : clientId ≠ "") (hcs : clientSecret ≠ "") :
    refresh_token (.object fields) clientId clientSecret client =
      (let payload : TokenPayload :=
        { client_id := clientId, client_secret := clientSecret,
          grant_field := "refresh_token", grant_value := (pyGet fields "refresh_token").getD .null,
          grant_type := "refresh_token" }
       let t := make_token_request_with_retry client 3
       match t.outcome with
       | .transportRaise msg =>
         { status := 500, body := mkError ("Exception during token refresh: " ++ msg),
           attempts := t.attempts, payload := some payload, logSafe := none }
       | .noResponse =>
         { status := 500, body := mkError ("Exception during token refresh: " ++ pyNoneStatusAttrMsg),
           attempts := t.attempts, payload := some payload, logSafe := none }
       | .success r =>
         if r.status ≠ 200 then
           { status := r.status,
             body := mkError ("Strava API error: " ++ toString r.status ++ " - " ++ upstreamErrDetail r),
             attempts := t.attempts, payload := some payload, logSafe := none }
         else
           match r.jsonBody with
           | some (.obj td) =>
             { status := 200, body := .obj td,
               attempts := t.attempts, payload := some payload, logSafe := some (logSafeData td) }
           | some _ =>
             { status := 500, body := mkError ("Exception during token refresh: " ++ pyItemsAttrMsg),
               attempts := t.attempts, payload := some payload, logSafe := none }
           | none =>
             { status := 500, body := mkError ("Exception during token refresh: " ++ requestsJsonDecodeMsg),
               attempts := t.attempts, payload := some payload, logSafe := none }) := by
  simp only [refresh_token, hrt, Bool.false_eq_true, if_false, hcid, hcs, or_self,
    false_or, or_false]

/-- Claim C2: when the first POST completes at the transport level but
carries an HTTP error status, the retrying token request performs exactly
one attempt, never sleeps, and returns that response; the exchange operation
then returns an `{error: message}` body with the upstream status code
preserved — HTTP error statuses are never retried. -/
theorem http_error_status_not_retried
    (client : Nat → UpstreamOutcome) (maxRetries : Nat) (r : HttpResponse)
    (fields : List (String × Json)) (clientId clientSecret : String)
    (hmax : 1 ≤ maxRetries)
    (h0 : client 0 = .response r) :
    make_token_request_with_retry client maxRetries = ⟨.success r, 1, 0⟩ ∧
    (400 ≤ r.status →
      pyFalsy (pyGet fields "code") = false →
      clientId ≠ "" → clientSecret ≠ "" →
      (exchange_token (.object fields) clientId clientSecret client).status = r.status ∧
      (exchange_token (.object fields) clientId clientSecret client).attempts = 1 ∧
      ∃ m, (exchange_token (.object fields) clientId clientSecret client).body = mkError m) := by
  have hret : make_token_request_with_retry client maxRetries = ⟨.success r, 1, 0⟩ := by
    obtain ⟨f, rfl⟩ : ∃ f, maxRetries = f + 1 := ⟨maxRetries - 1, by omega⟩
    unfold make_token_request_with_retry retryAux
    rw [h0]
  have hret3 : make_token_request_with_retry client 3 = ⟨.success r, 1, 0⟩ := by
    show retryAux client (2 + 1) 0 0 = _
    unfold retryAux
    rw [h0]
  refine ⟨hret, fun hstat hcode hcid hcs => ?_⟩
  have h200 : r.status ≠ 200 := by omega
  have hx : exchange_token (.object fields) clientId clientSecret client =
      ⟨r.status,
       mkError ("Strava API error: " ++ toString r.status ++ " - " ++ upstreamErrDetail r),
       1,
       some ⟨clientId, clientSecret, "code", (pyGet fields "code").getD .null,
         "authorization_code"⟩,
       none⟩ := by
    rw [exchange_token_object_eval fields clientId clientSecret client hcode hcid hcs]
    simp only [hret3]
    rw [if_pos h200]
  rw [hx]
  exact ⟨rfl, rfl, _, rfl⟩

/-- An upstream token response carrying HTTP status 401. -/
def http401Response : HttpResponse :=
  ⟨401, some (.obj [("message", .str "Authorization Error")]), ""⟩

/-- A simulated token-endpoint client answering 401 on every attempt. -/
def http401Client : Nat → UpstreamOutcome := fun _ => .response http401Response

theorem http_error_status_not_retried_witness :
    make_token_request_with_retry http401Client 3 = ⟨.success http401Response, 1, 0⟩ ∧
    (exchange_token (.object [("code", .str "abc123")]) "cid" "secret" http401Client).status = 401 ∧
    (exchange_token (.object [("code", .str "abc123")]) "cid" "secret" http401Client).attempts = 1 := by
  have h := http_error_status_not_retried http401Client 3 http401Response
    [("code", .str "abc123")] "cid" "secret" (by omega) rfl
  exact ⟨h.1, (h.2 (by decide) (by rfl) (by decide) (by decide)).1,
    (h.2 (by decide) (by rfl) (by decide) (by decide)).2.1⟩

/-- A simulated token-endpoint client answering HTTP 201 (a 2xx status other
than 200) with a JSON object body on every attempt. -/
def http201Client : Nat → UpstreamOutcome :=
  fun _ => .response ⟨201, some (.obj [("ok", .bool true)]), ""⟩

/-- Claim C3 counterexample: with code "abc123", configured credentials, and
an upstream delivering HTTP 201 — a 2xx success — with a JSON body, the
operation does not return that body verbatim with status 200: the source
tests `status_code != 200`, not "non-2xx", so it enters the error branch and
answers 201 with an `{error}` body. -/
theorem exchange_token_2xx_counterexample :
    (exchange_token (.object [("code", .str "abc123")]) "cid" "secret" http201Client).status = 201 ∧
    (exchange_token (.object [("code", .str "abc123")]) "cid" "secret" http201Client).status ≠ 200 ∧
    (exchange_token (.object [("code", .str "abc123")]) "cid" "secret" http201Client).body =
      mkError "Strava API error: 201 - \x7b\"ok\": true\x7d" := by
  refine ⟨rfl, ?_, rfl⟩
  intro h
  rw [show (exchange_token (.object [("code", .str "abc123")]) "cid" "secret"
    http201Client).status = 201 from rfl] at h
  exact absurd h (by decide)

/-- Claim C3 (amended): with a truthy `code`, configured credentials, and
the first POST delivering response `r`: when `r.status ≠ 200` — any other
status, non-2xx or 2xx alike — the operation returns a normalized
`{error: message}` body with the upstream status code preserved; when
`r.status = 200` and the body parses as a JSON object, the operation returns
that body verbatim with status 200. -/
theorem exchange_token_upstream_dispatch
    (fields : List (String × Json)) (clientId clientSecret : String)
    (client : Nat → UpstreamOutcome) (r : HttpResponse)
    (hcode : pyFalsy (pyGet fields "code") = false)
    (hcid : clientId ≠ "") (hcs : clientSecret ≠ "")
    (h0 : client 0 = .response r) :
    (r.status ≠ 200 →
      (exchange_token (.object fields) clientId clientSecret client).status = r.status ∧
      (exchange_token (.object fields) clientId clientSecret client).body =
        mkError ("Strava API error: " ++ toString r.status ++ " - " ++ upstreamErrDetail r)) ∧
    (∀ td, r.status = 200 → r.jsonBody = some (.obj td) →
      (exchange_token (.object fields) clientId clientSecret client).status = 200 ∧
      (exchange_token (.object fields) clientId clientSecret client).body = .obj td) := by
  have hret3 : make_token_request_with_retry client 3 = ⟨.success r, 1, 0⟩ := by
    show retryAux client (2 + 1) 0 0 = _
    unfold retryAux
    rw [h0]
  have he := exchange_token_object_eval fields clientId clientSecret client hcode hcid hcs
  constructor
  · intro h200
    rw [he]
    simp only [hret3]
    rw [if_pos h200]
    exact ⟨rfl, rfl⟩
  · intro td h200 hbody
    rw [he]
    simp only [hret3]
    rw [if_neg (fun hc => hc h200), hbody]
    exact ⟨rfl, rfl⟩

/-- A simulated token-endpoint client delivering the spec's end-to-end
success scenario response on every attempt. -/
def tokenOkClient : Nat → UpstreamOutcome := fun _ => .response exampleTokenResponse

/-- A simulated token-endpoint client answering HTTP 404 with a non-JSON
body on every attempt. -/
def http404Client : Nat → UpstreamOutcome := fun _ => .response ⟨404, none, "Not Found"⟩

theorem exchange_token_upstream_dispatch_witness :
    (exchange_token (.object [("code", .str "abc123")]) "cid" "secret" tokenOkClient).status = 200 ∧
    (exchange_token (.object [("code", .str "abc123")]) "cid" "secret" tokenOkClient).body =
      .obj [("access_token", .str "X"), ("refresh_token", .str "Y"), ("expires_at", .num 123)] ∧
    (exchange_token (.object [("code", .str "abc123")]) "cid" "secret" http404Client).status = 404 := by
  have h1 := exchange_token_upstream_dispatch [("code", .str "abc123")] "cid" "secret"
    tokenOkClient exampleTokenResponse rfl (by decide) (by decide) rfl
  have h2 := exchange_token_upstream_dispatch [("code", .str "abc123")] "cid" "secret"
    http404Client ⟨404, none, "Not Found"⟩ rfl (by decide) (by decide) rfl
  exact ⟨(h1.2 _ rfl rfl).1, (h1.2 _ rfl rfl).2, (h2.1 (by decide)).1⟩

/-- Claim C4: a JSON-object body without `code` (or with an empty `code`) to
exchange-token, a JSON-object body without `refresh_token` to refresh-token,
and a missing bearer token on activities / athlete-zones each produce the
documented status (400, 400, 401, 401) with an `{error: message}` body and
zero calls to the upstream endpoint. -/
theorem missing_input_no_upstream_call
    (fieldsE fieldsR : List (String × Json)) (clientId clientSecret : String)
    (client : Nat → UpstreamOutcome) (upstream : UpstreamOutcome)
    (params : List (String × String))
    (hcode : pyGet fieldsE "code" = none ∨ pyGet fieldsE "code" = some (Json.str ""))
    (hrt : pyGet fieldsR "refresh_token" = none) :
    (exchange_token (.object fieldsE) clientId clientSecret client).status = 400 ∧
    (exchange_token (.object fieldsE) clientId clientSecret client).attempts = 0 ∧
    (exchange_token (.object fieldsE) clientId clientSecret client).body =
      mkError "No authorization code provided" ∧
    (refresh_token (.object fieldsR) clientId clientSecret client).status = 400 ∧
    (refresh_token (.object fieldsR) clientId clientSecret client).attempts = 0 ∧
    (refresh_token (.object fieldsR) clientId clientSecret client).body =
      mkError "No refresh token provided" ∧
    (get_activities none params upstream).status = 401 ∧
    (get_activities none params upstream).upstreamCalls = 0 ∧
    (get_activities none params upstream).body = mkError "No access token provided" ∧
    (get_athlete_zones none upstream).status = 401 ∧
    (get_athlete_zones none upstream).upstreamCalls = 0 ∧
    (get_athlete_zones none upstream).body = mkError "No access token provided" := by
  have hfalsyE : pyFalsy (pyGet fieldsE "code") = true := by
    rcases hcode with hc | hc <;> rw [hc] <;> rfl
  have hfalsyR : pyFalsy (pyGet fieldsR "refresh_token") = true := by
    rw [hrt]
    rfl
  have hx : exchange_token (.object fieldsE) clientId clientSecret client =
      ⟨400, mkError "No authorization code provided", 0, none, none⟩ := by
    simp [exchange_token, hfalsyE]
  have hy : refresh_token (.object fieldsR) clientId clientSecret client =
      ⟨400, mkError "No refresh token provided", 0, none, none⟩ := by
    simp [refresh_token, hfalsyR]
  have hz : get_activities none params upstream =
      ⟨401, mkError "No access token provided", 0, none, none⟩ := rfl
  have hw : get_athlete_zones none upstream =
      ⟨401, mkError "No access token provided", 0, none, none⟩ := rfl
  rw [hx, hy, hz, hw]
  exact ⟨rfl, rfl, rfl, rfl, rfl, rfl, rfl, rfl, rfl, rfl, rfl, rfl⟩

theorem missing_input_no_upstream_call_witness :
    (exchange_token (.object [("other", .num 1)]) "cid" "secret" tokenOkClient).status = 400 ∧
    (exchange_token (.object [("other", .num 1)]) "cid" "secret" tokenOkClient).attempts = 0 ∧
    (refresh_token (.object []) "cid" "secret" tokenOkClient).status = 400 ∧
    (get_activities none [("page", "1")] (.transportFault "refused")).status = 401 ∧
    (get_athlete_zones none (.transportFault "refused")).upstreamCalls = 0 := by
  have h := missing_input_no_upstream_call [("other", .num 1)] [] "cid" "secret"
    tokenOkClient (.transportFault "refused") [("page", "1")] (Or.inl rfl) rfl
  exact ⟨h.1, h.2.1, h.2.2.2.1, h.2.2.2.2.2.2.1, h.2.2.2.2.2.2.2.2.2.2.1⟩

/-- Claim C5 counterexample: on an empty JSON-object body both token
operations answer 400, but with differently worded `{error}` bodies
("No refresh token provided" vs "No authorization code provided"), so the
observable response of refresh-token does not equal that of exchange-token
under the payload substitution. -/
theorem refresh_vs_exchange_body_counterexample :
    (refresh_token (.object []) "cid" "secret" tokenOkClient).status = 400 ∧
    (exchange_token (.object []) "cid" "secret" tokenOkClient).status = 400 ∧
    (refresh_token (.object []) "cid" "secret" tokenOkClient).body ≠
      (exchange_token (.object []) "cid" "secret" tokenOkClient).body := by
  refine ⟨rfl, rfl, ?_⟩
  intro hcontra
  rw [show (refresh_token (.object []) "cid" "secret" tokenOkClient).body =
      mkError "No refresh token provided" from rfl,
    show (exchange_token (.object []) "cid" "secret" tokenOkClient).body =
      mkError "No authorization code provided" from rfl] at hcontra
  simp [mkError] at hcontra

/-- Claim C5 (amended): for request bodies related by the
`code` ↦ `refresh_token` substitution, refresh-token and exchange-token
agree on status code and upstream attempt count for every input, and build
the substituted payload (`refresh_token` field, `refresh_token` grant type);
their response bodies are byte-identical in the missing-credentials case,
the non-200 normalization case and the 200-JSON-object pass-through case,
while in the missing-field 400 case and the blanket-exception 500 cases the
bodies are `{error}` objects with operation-specific wording. -/
theorem refresh_matches_exchange
    (fieldsE fieldsR : List (String × Json)) (clientId clientSecret : String)
    (client : Nat → UpstreamOutcome) (j : Json)
    (h : pyGet fieldsR "refresh_token" = pyGet fieldsE "code") :
    ((refresh_token (.object fieldsR) clientId clientSecret client).status =
      (exchange_token (.object fieldsE) clientId clientSecret client).status) ∧
    ((refresh_token (.object fieldsR) clientId clientSecret client).attempts =
      (exchange_token (.object fieldsE) clientId clientSecret client).attempts) ∧
    (pyFalsy (pyGet fieldsE "code") = false → (clientId = "" ∨ clientSecret = "") →
      (refresh_token (.object fieldsR) clientId clientSecret client).body =
        (exchange_token (.object fieldsE) clientId clientSecret client).body) ∧
    (pyFalsy (pyGet fieldsE "code") = false → clientId ≠ "" → clientSecret ≠ "" →
      ∀ r n s, make_token_request_with_retry client 3 = ⟨.success r, n, s⟩ →
        (r.status ≠ 200 →
          (refresh_token (.object fieldsR) clientId clientSecret client).body =
            (exchange_token (.object fieldsE) clientId clientSecret client).body) ∧
        (∀ td, r.status = 200 → r.jsonBody = some (.obj td) →
          (refresh_token (.object fieldsR) clientId clientSecret client).body =
            (exchange_token (.object fieldsE) clientId clientSecret client).body ∧
          (refresh_token (.object fieldsR) clientId clientSecret client).body = .obj td)) ∧
    (pyFalsy (pyGet fieldsE "code") = false → clientId ≠ "" → clientSecret ≠ "" →
      ∀ v, pyGet fieldsE "code" = some v →
        (exchange_token (.object fieldsE) clientId clientSecret client).payload =
          some ⟨clientId, clientSecret, "code", v, "authorization_code"⟩ ∧
        (refresh_token (.object fieldsR) clientId clientSecret client).payload =
          some ⟨clientId, clientSecret, "refresh_token", v, "refresh_token"⟩) ∧
    ((refresh_token .unparseable clientId clientSecret client).status =
      (exchange_token .unparseable clientId clientSecret client).status) ∧
    ((refresh_token .null clientId clientSecret client).status =
      (exchange_token .null clientId clientSecret client).status) ∧
    ((refresh_token (.nonObject j) clientId clientSecret client).status =
      (exchange_token (.nonObject j) clientId clientSecret client).status) := by
  by_cases hf : pyFalsy (pyGet fieldsE "code") = true
  · -- missing / falsy grant field: both answer 400 with fixed bodies
    have hfR : pyFalsy (pyGet fieldsR "refresh_token") = true := by rw [h]; exact hf
    have hE : exchange_token (.object fieldsE) clientId clientSecret client =
        ⟨400, mkError "No authorization code provided", 0, none, none⟩ := by
      simp [exchange_token, hf]
    have hR : refresh_token (.object fieldsR) clientId clientSecret client =
        ⟨400, mkError "No refresh token provided", 0, none, none⟩ := by
      simp [refresh_token, hfR]
    refine ⟨by rw [hE, hR], by rw [hE, hR], ?_, ?_, ?_, rfl, rfl, rfl⟩
    · intro hff _
      rw [hf] at hff
      exact absurd hff (by decide)
    · intro hff _ _
      rw [hf] at hff
      exact absurd hff (by decide)
    · intro hff _ _
      rw [hf] at hff
      exact absurd hff (by decide)
  · have hfE : pyFalsy (pyGet fieldsE "code") = false := by
      revert hf
      cases pyFalsy (pyGet fieldsE "code") <;> simp
    have hfR : pyFalsy (pyGet fieldsR "refresh_token") = false := by rw [h]; exact hfE
    by_cases hd : clientId = "" ∨ clientSecret = ""
    · -- credentials missing: both answer 500 with the same body
      have hE : exchange_token (.object fieldsE) clientId clientSecret client =
          ⟨500, mkError "Server configuration error: API credentials missing", 0, none, none⟩ := by
        simp [exchange_token, hfE, hd]
      have hR : refresh_token (.object fieldsR) clientId clientSecret client =
          ⟨500, mkError "Server configuration error: API credentials missing", 0, none, none⟩ := by
        simp [refresh_token, hfR, hd]
      refine ⟨by rw [hE, hR], by rw [hE, hR], fun _ _ => by rw [hE, hR], ?_, ?_, rfl, rfl, rfl⟩
      · intro _ hcid hcs
        rcases hd with hd | hd
        · exact absurd hd hcid
        · exact absurd hd hcs
      · intro _ hcid hcs
        rcases hd with hd | hd
        · exact absurd hd hcid
        · exact absurd hd hcs
    · -- credentials present: both run the retry and the same dispatch
      push_neg at hd
      obtain ⟨hcid, hcs⟩ := hd
      have hE := exchange_token_object_eval fieldsE clientId clientSecret client hfE hcid hcs
      have hR := refresh_token_object_eval fieldsR clientId clientSecret client hfR hcid hcs
      rcases htr : make_token_request_with_retry client 3 with ⟨o, att, slp⟩
      rw [htr] at hE hR
      dsimp only at hE hR
      refine ⟨?_, ?_, ?_, ?_, ?_, rfl, rfl, rfl⟩
      · -- statuses agree in every branch
        rw [hE, hR]
        cases o with
        | transportRaise m => rfl
        | noResponse => rfl
        | success r =>
          dsimp only
          by_cases h200 : r.status = 200
          · rw [if_neg (fun hc => hc h200), if_neg (fun hc => hc h200)]
            cases hjb : r.jsonBody with
            | none => rfl
            | some jb => cases jb <;> rfl
          · rw [if_pos h200, if_pos h200]
      · -- attempt counts agree in every branch
        rw [hE, hR]
        cases o with
        | transportRaise m => rfl
        | noResponse => rfl
        | success r =>
          dsimp only
          by_cases h200 : r.status = 200
          · rw [if_neg (fun hc => hc h200), if_neg (fun hc => hc h200)]
            cases hjb : r.jsonBody with
            | none => rfl
            | some jb => cases jb <;> rfl
          · rw [if_pos h200, if_pos h200]
      · intro _ hd'
        rcases hd' with hd' | hd'
        · exact absurd hd' hcid
        · exact absurd hd' hcs
      · intro _ _ _ r' n s htr'
        cases o with
        | transportRaise m =>
          exfalso
          injection htr' with h1 h2 h3
          exact RetryOutcome.noConfusion h1
        | noResponse =>
          exfalso
          injection htr' with h1 h2 h3
          exact RetryOutcome.noConfusion h1
        | success r =>
          injection htr' with h1 h2 h3
          injection h1 with hr
          subst hr
          constructor
          · intro hne
            rw [hE, hR]
            dsimp only
            rw [if_pos hne, if_pos hne]
          · intro td h200 hbody
            rw [hE, hR]
            dsimp only
            rw [if_neg (fun hc => hc h200), if_neg (fun hc => hc h200), hbody]
            exact ⟨rfl, rfl⟩
      · intro _ _ _ v hv
        constructor
        · rw [hE]
          cases o with
          | transportRaise m =>
            dsimp only
            rw [hv]
            rfl
          | noResponse =>
            dsimp only
            rw [hv]
            rfl
          | success r =>
            dsimp only
            by_cases h200 : r.status = 200
            · rw [if_neg (fun hc => hc h200)]
              cases hjb : r.jsonBody with
              | none =>
                dsimp only
                rw [hv]
                rfl
              | some jb =>
                cases jb <;> (dsimp only; rw [hv]; rfl)
            · rw [if_pos h200]
              dsimp only
              rw [hv]
              rfl
        · rw [hR]
          cases o with
          | transportRaise m =>
            dsimp only
            rw [h, hv]
            rfl
          | noResponse =>
            dsimp only
            rw [h, hv]
            rfl
          | success r =>
            dsimp only
            by_cases h200 : r.status = 200
            · rw [if_neg (fun hc => hc h200)]
              cases hjb : r.jsonBody with
              | none =>
                dsimp only
                rw [h, hv]
                rfl
              | some jb =>
                cases jb <;> (dsimp only; rw [h, hv]; rfl)
            · rw [if_pos h200]
              dsimp only
              rw [h, hv]
              rfl

theorem refresh_matches_exchange_witness :
    (refresh_token (.object [("refresh_token", .str "rt")]) "cid" "secret" tokenOkClient).status =
      (exchange_token (.object [("code", .str "rt")]) "cid" "secret" tokenOkClient).status ∧
    (refresh_token (.object [("refresh_token", .str "rt")]) "cid" "secret" tokenOkClient).body =
      (exchange_token (.object [("code", .str "rt")]) "cid" "secret" tokenOkClient).body ∧
    (exchange_token (.object [("code", .str "rt")]) "cid" "secret" tokenOkClient).payload =
      some ⟨"cid", "secret", "code", .str "rt", "authorization_code"⟩ ∧
    (refresh_token (.object [("refresh_token", .str "rt")]) "cid" "secret" tokenOkClient).payload =
      some ⟨"cid", "secret", "refresh_token", .str "rt", "refresh_token"⟩ := by
  have h := refresh_matches_exchange [("code", .str "rt")] [("refresh_token", .str "rt")]
    "cid" "secret" tokenOkClient .null rfl
  have h4 := h.2.2.2.1 rfl (by decide) (by decide) exampleTokenResponse 1 0 rfl
  have h5 := h.2.2.2.2.1 rfl (by decide) (by decide) (.str "rt") rfl
  exact ⟨h.1, (h4.2 _ rfl rfl).1, h5.1, h5.2⟩

/-- Claim C6: for every inbound request to any of the five operations and
every upstream behaviour (transport fault, non-2xx response, non-JSON body,
or success), the handler returns a JSON body that is either an
`{error: message}` object or the relayed upstream JSON (resp. the built
authorization URL) — every fault is converted at the handler boundary
rather than escaping to the caller. -/
theorem handlers_never_propagate_raw_fault :
    (∀ body clientId clientSecret client,
      (∃ m, (exchange_token body clientId clientSecret client).body = mkError m) ∨
      (∃ r td, (make_token_request_with_retry client 3).outcome = .success r ∧
        r.jsonBody = some (.obj td) ∧
        (exchange_token body clientId clientSecret client).body = .obj td ∧
        (exchange_token body clientId clientSecret client).status = 200)) ∧
    (∀ body clientId clientSecret client,
      (∃ m, (refresh_token body clientId clientSecret client).body = mkError m) ∨
      (∃ r td, (make_token_request_with_retry client 3).outcome = .success r ∧
        r.jsonBody = some (.obj td) ∧
        (refresh_token body clientId clientSecret client).body = .obj td ∧
        (refresh_token body clientId clientSecret client).status = 200)) ∧
    (∀ authHeader params upstream,
      (∃ m, (get_activities authHeader params upstream).body = mkError m) ∨
      (∃ r, upstream = .response r ∧
        r.jsonBody = some ((get_activities authHeader params upstream).body))) ∧
    (∀ authHeader upstream,
      (∃ m, (get_athlete_zones authHeader upstream).body = mkError m) ∨
      (∃ r, upstream = .response r ∧
        r.jsonBody = some ((get_athlete_zones authHeader upstream).body))) ∧
    (∀ redirectUriArg scopesArg clientId expectedRedirectUri,
      (∃ m, (get_auth_url redirectUriArg scopesArg clientId expectedRedirectUri).body = mkError m) ∨
      (∃ u, (get_auth_url redirectUriArg scopesArg clientId expectedRedirectUri).body =
        Json.obj [("url", Json.str u)])) := by
  refine ⟨?_, ?_, ?_, ?_, ?_⟩
  · intro body clientId clientSecret client
    cases body with
    | unparseable => exact Or.inl ⟨_, rfl⟩
    | null => exact Or.inl ⟨_, rfl⟩
    | nonObject jx => exact Or.inl ⟨_, rfl⟩
    | object fields =>
      by_cases hfalsy : pyFalsy (pyGet fields "code") = true
      · exact Or.inl ⟨_, by simp [exchange_token, hfalsy]; rfl⟩
      · have hfE : pyFalsy (pyGet fields "code") = false := by
          revert hfalsy
          cases pyFalsy (pyGet fields "code") <;> simp
        by_cases hd : clientId = "" ∨ clientSecret = ""
        · exact Or.inl ⟨_, by simp [exchange_token, hfE, hd]; rfl⟩
        · push_neg at hd
          obtain ⟨hcid, hcs⟩ := hd
          have hE := exchange_token_object_eval fields clientId clientSecret client hfE hcid hcs
          rcases htr : make_token_request_with_retry client 3 with ⟨o, att, slp⟩
          rw [htr] at hE
          dsimp only at hE
          cases o with
          | transportRaise m => exact Or.inl ⟨_, by rw [hE]⟩
          | noResponse => exact Or.inl ⟨_, by rw [hE]⟩
          | success r =>
            by_cases h200 : r.status = 200
            · cases hjb : r.jsonBody with
              | none =>
                refine Or.inl ⟨"Exception during token exchange: " ++ requestsJsonDecodeMsg, ?_⟩
                rw [hE]
                dsimp only
                rw [if_neg (fun hc => hc h200), hjb]
              | some jb =>
                cases jb with
                | obj td =>
                  refine Or.inr ⟨r, td, rfl, hjb, ?_, ?_⟩
                  · rw [hE]
                    dsimp only
                    rw [if_neg (fun hc => hc h200), hjb]
                  · rw [hE]
                    dsimp only
                    rw [if_neg (fun hc => hc h200), hjb]
                | str s =>
                  refine Or.inl ⟨"Exception during token exchange: " ++ pyItemsAttrMsg, ?_⟩
                  rw [hE]
                  dsimp only
                  rw [if_neg (fun hc => hc h200), hjb]
                | num n =>
                  refine Or.inl ⟨"Exception during token exchange: " ++ pyItemsAttrMsg, ?_⟩
                  rw [hE]
                  dsimp only
                  rw [if_neg (fun hc => hc h200), hjb]
                | bool b =>
                  refine Or.inl ⟨"Exception during token exchange: " ++ pyItemsAttrMsg, ?_⟩
                  rw [hE]
                  dsimp only
                  rw [if_neg (fun hc => hc h200), hjb]
                | null =>
                  refine Or.inl ⟨"Exception during token exchange: " ++ pyItemsAttrMsg, ?_⟩
                  rw [hE]
                  dsimp only
                  rw [if_neg (fun hc => hc h200), hjb]
                | arr xs =>
                  refine Or.inl ⟨"Exception during token exchange: " ++ pyItemsAttrMsg, ?_⟩
                  rw [hE]
                  dsimp only
                  rw [if_neg (fun hc => hc h200), hjb]
            · refine Or.inl ⟨"Strava API error: " ++ toString r.status ++ " - " ++ upstreamErrDetail r, ?_⟩
              rw [hE]
              dsimp only
              rw [if_pos h200]
  · intro body clientId clientSecret client
    cases body with
    | unparseable => exact Or.inl ⟨_, rfl⟩
    | null => exact Or.inl ⟨_, rfl⟩
    | nonObject jx => exact Or.inl ⟨_, rfl⟩
    | object fields =>
      by_cases hfalsy : pyFalsy (pyGet fields "refresh_token") = true
      · exact Or.inl ⟨_, by simp [refresh_token, hfalsy]; rfl⟩
      · have hfR : pyFalsy (pyGet fields "refresh_token") = false := by
          revert hfalsy
          cases pyFalsy (pyGet fields "refresh_token") <;> simp
        by_cases hd : clientId = "" ∨ clientSecret = ""
        · exact Or.inl ⟨_, by simp [refresh_token, hfR, hd]; rfl⟩
        · push_neg at hd
          obtain ⟨hcid, hcs⟩ := hd
          have hR := refresh_token_object_eval fields clientId clientSecret client hfR hcid hcs
          rcases htr : make_token_request_with_retry client 3 with ⟨o, att, slp⟩
          rw [htr] at hR
          dsimp only at hR
          cases o with
          | transportRaise m => exact Or.inl ⟨_, by rw [hR]⟩
          | noResponse => exact Or.inl ⟨_, by rw [hR]⟩
          | success r =>
            by_cases h200 : r.status = 200
            · cases hjb : r.jsonBody with
              | none =>
                refine Or.inl ⟨"Exception during token refresh: " ++ requestsJsonDecodeMsg, ?_⟩
                rw [hR]
                dsimp only
                rw [if_neg (fun hc => hc h200), hjb]
              | some jb =>
                cases jb with
                | obj td =>
                  refine Or.inr ⟨r, td, rfl, hjb, ?_, ?_⟩
                  · rw [hR]
                    dsimp only
                    rw [if_neg (fun hc => hc h200), hjb]
                  · rw [hR]
                    dsimp only
                    rw [if_neg (fun hc => hc h200), hjb]
                | str s =>
                  refine Or.inl ⟨"Exception during token refresh: " ++ pyItemsAttrMsg, ?_⟩
                  rw [hR]
                  dsimp only
                  rw [if_neg (fun hc => hc h200), hjb]
                | num n =>
                  refine Or.inl ⟨"Exception during token refresh: " ++ pyItemsAttrMsg, ?_⟩
                  rw [hR]
                  dsimp only
                  rw [if_neg (fun hc => hc h200), hjb]
                | bool b =>
                  refine Or.inl ⟨"Exception during token refresh: " ++ pyItemsAttrMsg, ?_⟩
                  rw [hR]
                  dsimp only
                  rw [if_neg (fun hc => hc h200), hjb]
                | null =>
                  refine Or.inl ⟨"Exception during token refresh: " ++ pyItemsAttrMsg, ?_⟩
                  rw [hR]
                  dsimp only
                  rw [if_neg (fun hc => hc h200), hjb]
                | arr xs =>
                  refine Or.inl ⟨"Exception during token refresh: " ++ pyItemsAttrMsg, ?_⟩
                  rw [hR]
                  dsimp only
                  rw [if_neg (fun hc => hc h200), hjb]
            · refine Or.inl ⟨"Strava API error: " ++ toString r.status ++ " - " ++ upstreamErrDetail r, ?_⟩
              rw [hR]
              dsimp only
              rw [if_pos h200]
  · intro authHeader params upstream
    by_cases htok : pyReplace (authHeader.getD "") "Bearer " "" = ""
    · exact Or.inl ⟨_, by simp [get_activities, htok]; rfl⟩
    · cases upstream with
      | transportFault m => exact Or.inl ⟨m, by simp [get_activities, htok]⟩
      | response r =>
        by_cases herr : 400 ≤ r.status ∧ r.status < 600
        · cases hjb : r.jsonBody with
          | some jyy => exact Or.inr ⟨r, rfl, by simp [get_activities, htok, herr, hjb]⟩
          | none => exact Or.inl ⟨_, by simp [get_activities, htok, herr, hjb]; rfl⟩
        · cases hjb : r.jsonBody with
          | some jyy => exact Or.inr ⟨r, rfl, by simp [get_activities, htok, herr, hjb]⟩
          | none => exact Or.inl ⟨_, by simp [get_activities, htok, herr, hjb]; rfl⟩
  · intro authHeader upstream
    by_cases htok : pyReplace (authHeader.getD "") "Bearer " "" = ""
    · exact Or.inl ⟨_, by simp [get_athlete_zones, htok]; rfl⟩
    · cases upstream with
      | transportFault m => exact Or.inl ⟨m, by simp [get_athlete_zones, htok]⟩
      | response r =>
        by_cases herr : 400 ≤ r.status ∧ r.status < 600
        · cases hjb : r.jsonBody with
          | some jyy => exact Or.inr ⟨r, rfl, by simp [get_athlete_zones, htok, herr, hjb]⟩
          | none => exact Or.inl ⟨_, by simp [get_athlete_zones, htok, herr, hjb]; rfl⟩
        · cases hjb : r.jsonBody with
          | some jyy => exact Or.inr ⟨r, rfl, by simp [get_athlete_zones, htok, herr, hjb]⟩
          | none => exact Or.inl ⟨_, by simp [get_athlete_zones, htok, herr, hjb]; rfl⟩
  · intro redirectUriArg scopesArg clientId expectedRedirectUri
    by_cases hc : clientId = ""
    · exact Or.inl ⟨_, by simp [get_auth_url, hc]; rfl⟩
    · exact Or.inr ⟨_, by simp [get_auth_url, hc]; rfl⟩

/-- Claim C7: for an activities or athlete-zones request carrying a bearer
token, a failing upstream GET is relayed without retry in a single call:
a 4xx/5xx response with a parseable JSON body is relayed verbatim with its
status; a 4xx/5xx response with a non-JSON body yields a synthesized
`{error}` with that status; a transport fault yields a synthesized `{error}`
with status 500. -/
theorem fetch_upstream_error_relay
    (authHeader : Option String) (params : List (String × String))
    (r : HttpResponse) (msg : String)
    (htok : pyReplace (authHeader.getD "") "Bearer " "" ≠ "") :
    (∀ jx, 400 ≤ r.status → r.status < 600 → r.jsonBody = some jx →
      get_activities authHeader params (.response r) =
        ⟨r.status, jx, 1, some (pyReplace (authHeader.getD "") "Bearer " ""), some params⟩ ∧
      get_athlete_zones authHeader (.response r) =
        ⟨r.status, jx, 1, some (pyReplace (authHeader.getD "") "Bearer " ""), none⟩) ∧
    (400 ≤ r.status → r.status < 600 → r.jsonBody = none →
      get_activities authHeader params (.response r) =
        ⟨r.status, mkError (httpErrorMsg r.status), 1,
          some (pyReplace (authHeader.getD "") "Bearer " ""), some params⟩ ∧
      get_athlete_zones authHeader (.response r) =
        ⟨r.status, mkError (httpErrorMsg r.status), 1,
          some (pyReplace (authHeader.getD "") "Bearer " ""), none⟩) ∧
    (get_activities authHeader params (.transportFault msg) =
      ⟨500, mkError msg, 1, some (pyReplace (authHeader.getD "") "Bearer " ""), some params⟩ ∧
     get_athlete_zones authHeader (.transportFault msg) =
      ⟨500, mkError msg, 1, some (pyReplace (authHeader.getD "") "Bearer " ""), none⟩) := by
  refine ⟨?_, ?_, ?_⟩
  · intro jx h4 h6 hjb
    constructor
    · simp [get_activities, htok, h4, h6, hjb]
    · simp [get_athlete_zones, htok, h4, h6, hjb]
  · intro h4 h6 hjb
    constructor
    · simp [get_activities, htok, h4, h6, hjb]
    · simp [get_athlete_zones, htok, h4, h6, hjb]
  · constructor
    · simp [get_activities, htok]
    · simp [get_athlete_zones, htok]

theorem fetch_upstream_error_relay_witness :
    get_activities (some "Bearer tok") [("page", "2")]
        (.response ⟨429, some (.obj [("message", .str "Rate Limit Exceeded")]), ""⟩) =
      ⟨429, .obj [("message", .str "Rate Limit Exceeded")], 1, some "tok", some [("page", "2")]⟩ ∧
    get_athlete_zones (some "Bearer tok") (.response ⟨502, none, "Bad Gateway"⟩) =
      ⟨502, mkError (httpErrorMsg 502), 1, some "tok", none⟩ ∧
    get_activities (some "Bearer tok") [("page", "2")] (.transportFault "timed out") =
      ⟨500, mkError "timed out", 1, some "tok", some [("page", "2")]⟩ := by
  have h1 := fetch_upstream_error_relay (some "Bearer tok") [("page", "2")]
    ⟨429, some (.obj [("message", .str "Rate Limit Exceeded")]), ""⟩ "timed out" (by decide)
  have h2 := fetch_upstream_error_relay (some "Bearer tok") [("page", "2")]
    ⟨502, none, "Bad Gateway"⟩ "timed out" (by decide)
  exact ⟨(h1.1 _ (by decide) (by decide) rfl).1, (h2.2.1 (by decide) (by decide) rfl).2,
    h1.2.2.1⟩

/-- The redacted log mapping keeps the keys of the original mapping, in
order. -/
theorem logSafeData_keys (td : List (String × Json)) :
    (logSafeData td).map Prod.fst = td.map Prod.fst := by
  induction td with
  | nil => rfl
  | cons hd tl ih =>
    simp only [logSafeData, List.map_cons] at ih ⊢
    rw [ih]

/-- Claim C8: on a successful token response whose JSON object contains
`access_token` and `refresh_token`, the record written to the log by either
token operation is the redacted mapping: exactly those two keys have their
values replaced with "[REDACTED]", every other pair is unchanged (same keys,
same order, same values), so the literal token values do not occur among the
logged values (provided they do not also occur under unrelated keys and are
not themselves "[REDACTED]"), while the HTTP response body returned to the
caller is the original mapping unmodified. -/
theorem token_log_redaction
    (td fields fieldsR : List (String × Json))
    (clientId clientSecret : String) (client : Nat → UpstreamOutcome)
    (r : HttpResponse) (v : Json)
    (hcode : pyFalsy (pyGet fields "code") = false)
    (hrt : pyFalsy (pyGet fieldsR "refresh_token") = false)
    (hcid : clientId ≠ "") (hcs : clientSecret ≠ "")
    (h0 : client 0 = .response r)
    (h200 : r.status = 200) (hbody : r.jsonBody = some (.obj td)) :
    (exchange_token (.object fields) clientId clientSecret client).logSafe =
      some (logSafeData td) ∧
    (exchange_token (.object fields) clientId clientSecret client).body = .obj td ∧
    (refresh_token (.object fieldsR) clientId clientSecret client).logSafe =
      some (logSafeData td) ∧
    (refresh_token (.object fieldsR) clientId clientSecret client).body = .obj td ∧
    (∀ kv ∈ td, kv.1 ≠ "access_token" → kv.1 ≠ "refresh_token" → kv ∈ logSafeData td) ∧
    ((logSafeData td).map Prod.fst = td.map Prod.fst) ∧
    (∀ kv ∈ logSafeData td, (kv.1 = "access_token" ∨ kv.1 = "refresh_token") →
      kv.2 = Json.str "[REDACTED]") ∧
    (("access_token", v) ∈ td → v ≠ Json.str "[REDACTED]" →
      (∀ kv ∈ td, kv.1 ≠ "access_token" → kv.1 ≠ "refresh_token" → kv.2 ≠ v) →
      ∀ kv ∈ logSafeData td, kv.2 ≠ v) := by
  have hret3 : make_token_request_with_retry client 3 = ⟨.success r, 1, 0⟩ := by
    show retryAux client (2 + 1) 0 0 = _
    unfold retryAux
    rw [h0]
  have hE : exchange_token (.object fields) clientId clientSecret client =
      ⟨200, .obj td, 1,
        some ⟨clientId, clientSecret, "code", (pyGet fields "code").getD .null,
          "authorization_code"⟩,
        some (logSafeData td)⟩ := by
    rw [exchange_token_object_eval fields clientId clientSecret client hcode hcid hcs]
    simp only [hret3]
    rw [if_neg (fun hc => hc h200), hbody]
  have hR : refresh_token (.object fieldsR) clientId clientSecret client =
      ⟨200, .obj td, 1,
        some ⟨clientId, clientSecret, "refresh_token", (pyGet fieldsR "refresh_token").getD .null,
          "refresh_token"⟩,
        some (logSafeData td)⟩ := by
    rw [refresh_token_object_eval fieldsR clientId clientSecret client hrt hcid hcs]
    simp only [hret3]
    rw [if_neg (fun hc => hc h200), hbody]
  refine ⟨by rw [hE], by rw [hE], by rw [hR], by rw [hR], ?_, ?_, ?_, ?_⟩
  · intro kv hkv h1 h2
    have hnc : ¬(kv.1 = "access_token" ∨ kv.1 = "refresh_token") := by
      rintro (hh | hh)
      · exact h1 hh
      · exact h2 hh
    have hids : (kv.1, if kv.1 = "access_token" ∨ kv.1 = "refresh_token"
        then Json.str "[REDACTED]" else kv.2) = kv := by
      rw [if_neg hnc]
    exact hids ▸ List.mem_map_of_mem _ hkv
  · exact logSafeData_keys td
  · intro kv hkv hk
    obtain ⟨kv0, hkv0, heq⟩ := List.mem_map.mp hkv
    cases heq
    dsimp only at hk ⊢
    rw [if_pos hk]
  · intro hmem hne hother kv hkv
    obtain ⟨kv0, hkv0, heq⟩ := List.mem_map.mp hkv
    cases heq
    dsimp only
    by_cases hp : kv0.1 = "access_token" ∨ kv0.1 = "refresh_token"
    · rw [if_pos hp]
      exact fun hh => hne hh.symm
    · rw [if_neg hp]
      push_neg at hp
      exact hother kv0 hkv0 hp.1 hp.2

/-- The token mapping of the spec's redaction scenario. -/
def exampleTokenData : List (String × Json) :=
  [("access_token", .str "X"), ("refresh_token", .str "Y"), ("expires_at", .num 123)]

theorem token_log_redaction_witness :
    (exchange_token (.object [("code", .str "abc123")]) "cid" "secret" tokenOkClient).logSafe =
      some [("access_token", .str "[REDACTED]"), ("refresh_token", .str "[REDACTED]"),
        ("expires_at", .num 123)] ∧
    (exchange_token (.object [("code", .str "abc123")]) "cid" "secret" tokenOkClient).body =
      .obj exampleTokenData ∧
    (∀ kv ∈ logSafeData exampleTokenData, kv.2 ≠ .str "X") := by
  have h := token_log_redaction exampleTokenData [("code", .str "abc123")]
    [("refresh_token", .str "rt")] "cid" "secret" tokenOkClient exampleTokenResponse
    (.str "X") rfl rfl (by decide) (by decide) rfl rfl rfl
  refine ⟨h.1.trans (by rfl), h.2.1, ?_⟩
  exact h.2.2.2.2.2.2.2 (by simp [exampleTokenData]) (by simp)
    (by intro kv hkv h1 h2; fin_cases hkv <;> simp_all [exampleTokenData])

/-- Claim C9: the activities and athlete-zones handlers take as access token
the Authorization header value with every occurrence of the substring
"Bearer " removed (Python `str.replace`, not a prefix strip): a header
lacking the prefix is accepted and its value forwarded verbatim, interior
occurrences are removed too, and 401 (with no upstream call) is returned
exactly when the resulting string is empty. -/
theorem bearer_token_extraction
    (authHeader : Option String) (params : List (String × String))
    (upstream : UpstreamOutcome) :
    (pyReplace (authHeader.getD "") "Bearer " "" = "" →
      (get_activities authHeader params upstream).status = 401 ∧
      (get_activities authHeader params upstream).upstreamCalls = 0 ∧
      (get_athlete_zones authHeader upstream).status = 401 ∧
      (get_athlete_zones authHeader upstream).upstreamCalls = 0) ∧
    (pyReplace (authHeader.getD "") "Bearer " "" ≠ "" →
      (get_activities authHeader params upstream).forwardedToken =
        some (pyReplace (authHeader.getD "") "Bearer " "") ∧
      (get_activities authHeader params upstream).upstreamCalls = 1 ∧
      (get_athlete_zones authHeader upstream).forwardedToken =
        some (pyReplace (authHeader.getD "") "Bearer " "") ∧
      (get_athlete_zones authHeader upstream).upstreamCalls = 1) := by
  constructor
  · intro htok
    refine ⟨?_, ?_, ?_, ?_⟩ <;> simp [get_activities, get_athlete_zones, htok]
  · intro htok
    cases upstream with
    | transportFault m =>
      refine ⟨?_, ?_, ?_, ?_⟩ <;> simp [get_activities, get_athlete_zones, htok]
    | response r =>
      by_cases herr : 400 ≤ r.status ∧ r.status < 600
      · cases hjb : r.jsonBody with
        | some jx =>
          refine ⟨?_, ?_, ?_, ?_⟩ <;>
            simp [get_activities, get_athlete_zones, htok, herr, hjb]
        | none =>
          refine ⟨?_, ?_, ?_, ?_⟩ <;>
            simp [get_activities, get_athlete_zones, htok, herr, hjb]
      · cases hjb : r.jsonBody with
        | some jx =>
          refine ⟨?_, ?_, ?_, ?_⟩ <;>
            simp [get_activities, get_athlete_zones, htok, herr, hjb]
        | none =>
          refine ⟨?_, ?_, ?_, ?_⟩ <;>
            simp [get_activities, get_athlete_zones, htok, herr, hjb]

theorem bearer_token_extraction_witness :
    (get_activities (some "Bearer tok123") [] (.transportFault "x")).forwardedToken =
      some "tok123" ∧
    (get_activities (some "Basic xyz") [] (.transportFault "x")).forwardedToken =
      some "Basic xyz" ∧
    (get_activities (some "tokBearer 123") [] (.transportFault "x")).forwardedToken =
      some "tok123" ∧
    (get_athlete_zones (some "Bearer ") (.transportFault "x")).status = 401 ∧
    (get_athlete_zones none (.transportFault "x")).upstreamCalls = 0 := by
  have h1 := bearer_token_extraction (some "Bearer tok123") [] (.transportFault "x")
  have h2 := bearer_token_extraction (some "Basic xyz") [] (.transportFault "x")
  have h3 := bearer_token_extraction (some "tokBearer 123") [] (.transportFault "x")
  have h4 := bearer_token_extraction (some "Bearer ") [] (.transportFault "x")
  have h5 := bearer_token_extraction none [] (.transportFault "x")
  exact ⟨(h1.2 (by decide)).1, (h2.2 (by decide)).1, (h3.2 (by decide)).1,
    (h4.1 (by decide)).2.2.1, (h5.1 (by decide)).2.2.2⟩

/-- Claim C10: a POST body that is not a JSON object — unparseable JSON or
JSON null (and likewise any decoded non-object value) — makes each token
operation answer 500 with an `{error: message}` body via its blanket
exception handler, not the documented 400 for a missing field, and no
upstream call is made. -/
theorem non_object_body_returns_500
    (clientId clientSecret : String) (client : Nat → UpstreamOutcome) (j : Json) :
    ((exchange_token .unparseable clientId clientSecret client).status = 500 ∧
     (exchange_token .unparseable clientId clientSecret client).attempts = 0 ∧
     ∃ m, (exchange_token .unparseable clientId clientSecret client).body = mkError m) ∧
    ((exchange_token .null clientId clientSecret client).status = 500 ∧
     (exchange_token .null clientId clientSecret client).attempts = 0 ∧
     ∃ m, (exchange_token .null clientId clientSecret client).body = mkError m) ∧
    ((exchange_token (.nonObject j) clientId clientSecret client).status = 500 ∧
     (exchange_token (.nonObject j) clientId clientSecret client).attempts = 0 ∧
     ∃ m, (exchange_token (.nonObject j) clientId clientSecret client).body = mkError m) ∧
    ((refresh_token .unparseable clientId clientSecret client).status = 500 ∧
     (refresh_token .unparseable clientId clientSecret client).attempts = 0 ∧
     ∃ m, (refresh_token .unparseable clientId clientSecret client).body = mkError m) ∧
    ((refresh_token .null clientId clientSecret client).status = 500 ∧
     (refresh_token .null clientId clientSecret client).attempts = 0 ∧
     ∃ m, (refresh_token .null clientId clientSecret client).body = mkError m) ∧
    ((refresh_token (.nonObject j) clientId clientSecret client).status = 500 ∧
     (refresh_token (.nonObject j) clientId clientSecret client).attempts = 0 ∧
     ∃ m, (refresh_token (.nonObject j) clientId clientSecret client).body = mkError m) := by
  exact ⟨⟨rfl, rfl, _, rfl⟩, ⟨rfl, rfl, _, rfl⟩, ⟨rfl, rfl, _, rfl⟩,
    ⟨rfl, rfl, _, rfl⟩, ⟨rfl, rfl, _, rfl⟩, ⟨rfl, rfl, _, rfl⟩⟩
